import Mathlib

/-!
Verification development for the BurpSuiteFromScratch MITM proxy.

We shallowly embed the parts of the program the specification talks about:

* `redis_storage.py` (`RedisStorage`): a Redis-backed decision store.  We
  model the Redis keyspace as an explicit state (`RedisState`) of hashes,
  lists, strings and per-key TTLs, and every Redis client call issued by the
  storage layer as an explicit command (`RedisCmd`) with its state semantics
  (`applyCmd`).  Each storage method is embedded as the list of commands it
  issues plus the value it returns, so theorems can speak both about the final
  state and about which commands were (or were not) issued.

* `proxy_api.py` (`ProxyAPI`): the decision endpoints `allow_request` and
  `block_request`, embedded as functions from store state to store state plus
  HTTP result.

* `proxyserver.py` (`MITMProxyServer`): the polling loop that waits for a
  request decision, the post-poll decision dispatch of
  `_read_and_store_request` and `_handle_http_request`, and the header
  rewriting performed when a response is written back to the client (both on
  the filter-mode forwarding path and on the intercept-mode allowed-response
  path).

* `request_interceptor.py` (`RequestInterceptor.is_connect_request`),
  together with models of Python's `str.strip` and `str.split`.
-/

namespace BurpScratch

/-! ## Association-list primitives

Redis hashes and the keyspaces themselves are modelled as association lists
from `String` keys; `kvSet` mirrors an in-place field update (existing key is
overwritten in place, new key appended), which preserves insertion order the
way both Redis hashes and Python dicts do. -/

/-- A Redis hash (field/value pairs, insertion-ordered). -/
abbrev Hash := List (String × String)

/-- Does the association list bind key `k`? -/
def kvHasKey {α : Type} (l : List (String × α)) (k : String) : Bool :=
  l.any (fun p => p.1 == k)

/-- Look up key `k` in an association list (first binding wins; Redis keys
and hash fields are duplicate-free). -/
def kvGet {α : Type} : List (String × α) → String → Option α
  | [], _ => none
  | p :: rest, k => if p.1 == k then some p.2 else kvGet rest k

/-- Bind key `k` to `v`: overwrite in place if present, append if absent —
the insertion-order behaviour of both Redis hashes and Python dicts. -/
def kvSet {α : Type} : List (String × α) → String → α → List (String × α)
  | [], k, v => [(k, v)]
  | p :: rest, k, v => if p.1 == k then (k, v) :: rest else p :: kvSet rest k v

/-- Remove key `k` from an association list. -/
def kvDel {α : Type} (l : List (String × α)) (k : String) : List (String × α) :=
  l.filter (fun p => !(p.1 == k))

/-! ## The Redis state and command semantics

The model covers exactly the Redis commands `redis_storage.py` issues on the
paths the claims are about: `HSET` (single field and mapping form), `LPUSH`,
`EXPIRE`, `DEL`, `LREM`, and plain `SET`.  Per Redis semantics, `HSET` on an
existing key does **not** touch the key's TTL; `EXPIRE` on a missing key is a
no-op; `DEL` removes the key and its TTL; `LREM` with count 0 removes every
occurrence (we keep an emptied list key around — `LRANGE` of a missing key and
of an empty list are observationally identical). -/

/-- The Redis keyspace visible to the program. -/
structure RedisState where
  hashes : List (String × Hash)
  lists : List (String × List String)
  strings : List (String × String)
  ttls : List (String × Nat)
deriving Repr, DecidableEq

/-- The empty keyspace. -/
def RedisState.empty : RedisState := ⟨[], [], [], []⟩

/-- A Redis client command as issued by `redis_storage.py`. -/
inductive RedisCmd where
  | hset (key field value : String)
  | hsetMapping (key : String) (fields : Hash)
  | lpush (key value : String)
  | expire (key : String) (seconds : Nat)
  | del (key : String)
  | lrem (key : String) (value : String)
  | setStr (key value : String)
deriving Repr, DecidableEq

/-- Set one field of the hash at `key`, creating the hash if absent. -/
def hashWrite (s : RedisState) (key field value : String) : RedisState :=
  let h := (kvGet s.hashes key).getD []
  { s with hashes := kvSet s.hashes key (kvSet h field value) }

/-- Does `key` exist in the keyspace (any type)? -/
def RedisState.hasKey (s : RedisState) (key : String) : Bool :=
  kvHasKey s.hashes key || kvHasKey s.lists key || kvHasKey s.strings key

/-- State transition of one Redis command. -/
def applyCmd (s : RedisState) : RedisCmd → RedisState
  | .hset key field value => hashWrite s key field value
  | .hsetMapping key fields =>
      let h := (kvGet s.hashes key).getD []
      { s with hashes :=
          kvSet s.hashes key (fields.foldl (fun acc p => kvSet acc p.1 p.2) h) }
  | .lpush key value =>
      let cur := (kvGet s.lists key).getD []
      { s with lists := kvSet s.lists key (value :: cur) }
  | .expire key seconds =>
      if s.hasKey key then { s with ttls := kvSet s.ttls key seconds } else s
  | .del key =>
      { hashes := kvDel s.hashes key
        lists := kvDel s.lists key
        strings := kvDel s.strings key
        ttls := kvDel s.ttls key }
  | .lrem key value =>
      let cur := (kvGet s.lists key).getD []
      { s with lists := kvSet s.lists key (cur.filter (fun x => !(x == value))) }
  | .setStr key value =>
      { s with strings := kvSet s.strings key value, ttls := kvDel s.ttls key }

/-- Run a command list left to right. -/
def runCmds (s : RedisState) (cmds : List RedisCmd) : RedisState :=
  cmds.foldl applyCmd s

/-- `HGET key field` (None when the key or the field is absent). -/
def redisHGet (s : RedisState) (key field : String) : Option String :=
  (kvGet s.hashes key).bind (fun h => kvGet h field)

/-- `GET key` for a string key. -/
def redisGetStr (s : RedisState) (key : String) : Option String :=
  kvGet s.strings key

/-- Remaining TTL of a key, if one was ever set. -/
def redisTTL (s : RedisState) (key : String) : Option Nat :=
  kvGet s.ttls key

/-- `LRANGE key 0 -1` (missing key reads as the empty list). -/
def redisLRange (s : RedisState) (key : String) : List String :=
  (kvGet s.lists key).getD []

/-! ## `redis_storage.py` — class `RedisStorage`

Each method is embedded as the list of Redis commands it issues (`…_cmds`)
and as a state transformer returning the method's Python return value.  The
`try`/`except` wrappers of the source report `False`/sentinels only when the
Redis client itself raises; the model is the exception-free execution, which
is the behaviour the claims describe. -/

/-- Models Python `json.dumps` on a string-to-string dict with default
separators, restricted to strings whose characters need no `\\u` escape:
backslash and double quote are escaped, everything else is verbatim. -/
def jsonEscape (s : String) : String :=
  s.data.foldl
    (fun acc c =>
      if c == '\\' then acc ++ "\\\\"
      else if c == '"' then acc ++ "\\\""
      else acc.push c)
    ""

/-- `json.dumps(headers)` for a header dict (see `jsonEscape`). -/
def jsonDumps (m : Hash) : String :=
  "\x7b" ++
    String.intercalate ", "
      (m.map (fun p => "\"" ++ jsonEscape p.1 ++ "\": \"" ++ jsonEscape p.2 ++ "\"")) ++
    "\x7d"

namespace RedisStorage

/-- The four status values named by the data model. -/
def statusSet : List String := ["pending", "allowed", "blocked", "modified"]

/-- Commands issued by `RedisStorage.save_request`
(`redis_storage.py` lines 63–86): `HSET request:<id> mapping`, `LPUSH
pending_requests <id>`, `EXPIRE request:<id> 3600`, `HSET request:<id> status
pending` — in that order. -/
def save_request_cmds (request_id hostname method path : String)
    (headers : Hash) (body timestamp : String) : List RedisCmd :=
  [ .hsetMapping ("request:" ++ request_id)
      [ ("id", request_id), ("hostname", hostname), ("method", method),
        ("path", path), ("headers", jsonDumps headers), ("body", body),
        ("timestamp", timestamp) ],
    .lpush "pending_requests" request_id,
    .expire ("request:" ++ request_id) 3600,
    .hset ("request:" ++ request_id) "status" "pending" ]

/-- `RedisStorage.save_request` (returns `True` on the exception-free path). -/
def save_request (s : RedisState) (request_id hostname method path : String)
    (headers : Hash) (body timestamp : String) : RedisState × Bool :=
  (runCmds s (save_request_cmds request_id hostname method path headers body timestamp),
   true)

/-- Commands issued by `RedisStorage.update_request_status`
(`redis_storage.py` line 145): a single `HSET` of the `status` field.  Note
there is no `EXPIRE` in this method. -/
def update_request_status_cmds (request_id status : String) : List RedisCmd :=
  [ .hset ("request:" ++ request_id) "status" status ]

/-- `RedisStorage.update_request_status`. -/
def update_request_status (s : RedisState) (request_id status : String) :
    RedisState × Bool :=
  (runCmds s (update_request_status_cmds request_id status), true)

/-- `RedisStorage.get_request_status` (`redis_storage.py` lines 161–163):
`HGET request:<id> status`, returning `unknown` when the result is falsy
(missing key, missing field, or empty string). -/
def get_request_status (s : RedisState) (request_id : String) : String :=
  match redisHGet s ("request:" ++ request_id) "status" with
  | some st => if st == "" then "unknown" else st
  | none => "unknown"

/-- `RedisStorage.get_response_status` (`redis_storage.py` lines 248–250). -/
def get_response_status (s : RedisState) (request_id : String) : String :=
  match redisHGet s ("response:" ++ request_id) "status" with
  | some st => if st == "" then "unknown" else st
  | none => "unknown"

/-- Commands issued by `RedisStorage.save_response`
(`redis_storage.py` lines 181–190): one `HSET` mapping (whose last field sets
`status` to `pending`) and an `EXPIRE` of one hour. -/
def save_response_cmds (request_id : String) (status_code : Nat)
    (headers : Hash) (body : String) : List RedisCmd :=
  [ .hsetMapping ("response:" ++ request_id)
      [ ("status_code", toString status_code), ("headers", jsonDumps headers),
        ("body", body), ("status", "pending") ],
    .expire ("response:" ++ request_id) 3600 ]

/-- `RedisStorage.save_response`. -/
def save_response (s : RedisState) (request_id : String) (status_code : Nat)
    (headers : Hash) (body : String) : RedisState × Bool :=
  (runCmds s (save_response_cmds request_id status_code headers body), true)

/-- Commands issued by `RedisStorage.update_response_status`
(`redis_storage.py` line 232). -/
def update_response_status_cmds (request_id status : String) : List RedisCmd :=
  [ .hset ("response:" ++ request_id) "status" status ]

/-- `RedisStorage.update_response_status`. -/
def update_response_status (s : RedisState) (request_id status : String) :
    RedisState × Bool :=
  (runCmds s (update_response_status_cmds request_id status), true)

/-- Commands issued by `RedisStorage.delete_request`
(`redis_storage.py` lines 352–355): `DEL request:<id>` then
`LREM pending_requests 0 <id>`. -/
def delete_request_cmds (request_id : String) : List RedisCmd :=
  [ .del ("request:" ++ request_id),
    .lrem "pending_requests" request_id ]

/-- `RedisStorage.delete_request` (returns `True` on the exception-free
path). -/
def delete_request (s : RedisState) (request_id : String) : RedisState × Bool :=
  (runCmds s (delete_request_cmds request_id), true)

/-- `RedisStorage.set_proxy_mode` (`redis_storage.py` lines 424–428):
rejects any mode other than `intercept`/`filter` before touching the store. -/
def set_proxy_mode (s : RedisState) (mode : String) : RedisState × Bool :=
  if ¬(mode == "intercept" || mode == "filter") then (s, false)
  else (runCmds s [ .setStr "proxy_config:mode" mode ], true)

/-- `RedisStorage.get_proxy_mode` (`redis_storage.py` lines 441–442):
falsy stored values (missing key, empty string) default to `intercept`. -/
def get_proxy_mode (s : RedisState) : String :=
  match redisGetStr s "proxy_config:mode" with
  | some m => if m == "" then "intercept" else m
  | none => "intercept"

end RedisStorage

/-! ## `proxy_api.py` — class `ProxyAPI`

The two decision endpoints the claims are about.  An endpoint is a function
from store state to (new store state, issued commands, HTTP result); Flask
turns a handler that returns `None` into a 500 error, which we model as
`none`. -/

namespace ProxyAPI

/-- `POST /api/requests/<id>/allow` (`proxy_api.py` lines 73–76).  The
handler body is a bare `return`: it touches neither the store nor the
response. -/
def allow_request (s : RedisState) (_request_id : String) :
    RedisState × List RedisCmd × Option (Nat × String) :=
  (s, [], none)

/-- Commands issued by `POST /api/requests/<id>/block`
(`proxy_api.py` lines 78–86): exactly those of
`RedisStorage.delete_request`. -/
def block_request_cmds (request_id : String) : List RedisCmd :=
  RedisStorage.delete_request_cmds request_id

/-- `POST /api/requests/<id>/block`: calls `delete_request` and answers
`200 {"status": "blocked"}` on success, `500` otherwise. -/
def block_request (s : RedisState) (request_id : String) :
    RedisState × List RedisCmd × Option (Nat × String) :=
  let r := RedisStorage.delete_request s request_id
  if r.2 then (r.1, block_request_cmds request_id, some (200, "blocked"))
  else (r.1, block_request_cmds request_id, some (500, "error"))

end ProxyAPI

/-! ## `proxyserver.py` — class `MITMProxyServer`

### The request-decision polling loop (state S5b_WAIT)

`_read_and_store_request` lines 296–308 and `_handle_http_request` lines
553–564 run the identical loop

```
max_wait = 60; waited = 0; status = 'pending'
while waited < max_wait:
    status = self.storage.get_request_status(request_id)
    if status != 'pending': break
    time.sleep(0.5); waited += 0.5
```

`waited` only ever takes the exactly-representable values 0, 0.5, …, so the
loop body runs at most 120 times.  We count time in half-second ticks and
feed the loop a status oracle `polls : Nat → String` giving the value
`get_request_status` returns at the k-th poll; the loop yields the final
status together with the number of polls performed. -/

/-- One decision-polling loop, fuel-indexed by the remaining iterations
(entered with fuel 120 = 60 s / 0.5 s).  Returns (final status, polls
made). -/
def pollStatusLoop (polls : Nat → String) : Nat → Nat → String → String × Nat
  | 0, k, status => (status, k)
  | fuel + 1, k, _ =>
      let st := polls k
      if st == "pending" then pollStatusLoop polls fuel (k + 1) st
      else (st, k + 1)

/-- Fuel for a 60-second wait polled every 500 ms. -/
def maxWaitPolls : Nat := 120

/-- The request-decision wait as entered by both handlers. -/
def requestDecisionWait (polls : Nat → String) : String × Nat :=
  pollStatusLoop polls maxWaitPolls 0 "pending"

/-! ### Post-poll decision dispatch

After the loop, both handlers dispatch on the final status
(`_read_and_store_request` lines 310–426, `_handle_http_request` lines
566–675).  At branch granularity the four outcomes are: `blocked` sends
`HTTP/1.1 403 Forbidden\r\n\r\nBlocked by proxy`; `allowed` is the only
branch that reaches `requests.request` (the upstream connection);
`modified` sends 501; anything else (still `pending`, or the `unknown`
sentinel) sends `HTTP/1.1 408 Request Timeout\r\n\r\n`. -/

/-- Outcome of the post-poll dispatch. -/
inductive ProxyAction where
  | send403Blocked
  | forwardUpstream
  | send501NotImplemented
  | send408Timeout
deriving Repr, DecidableEq

/-- Post-poll dispatch of the HTTPS tunnel handler
(`_read_and_store_request`, lines 310–426). -/
def requestDecisionTunnel (status : String) : ProxyAction :=
  if status == "blocked" then .send403Blocked
  else if status == "allowed" then .forwardUpstream
  else if status == "modified" then .send501NotImplemented
  else .send408Timeout

/-- Post-poll dispatch of the plain HTTP handler
(`_handle_http_request`, lines 566–675); the source code is identical to the
tunnel handler's dispatch. -/
def requestDecisionPlain (status : String) : ProxyAction :=
  if status == "blocked" then .send403Blocked
  else if status == "allowed" then .forwardUpstream
  else if status == "modified" then .send501NotImplemented
  else .send408Timeout

/-- Does the dispatch reach `requests.request` (an upstream connection)? -/
def reachesUpstreamTunnel (status : String) : Bool :=
  requestDecisionTunnel status == .forwardUpstream

/-- Plain-HTTP variant of `reachesUpstreamTunnel`. -/
def reachesUpstreamPlain (status : String) : Bool :=
  requestDecisionPlain status == .forwardUpstream

/-! ### Writing a response to the client (state S9)

A response on the wire: status code, the header lines actually written, and
the body bytes then written. -/

/-- The response as written to the client socket. -/
structure WireResponse where
  statusCode : Nat
  headers : Hash
  body : List Nat
deriving Repr, DecidableEq

/-- Models Python `str.lower` on the ASCII range (header names are ASCII):
maps each basic-latin upper-case letter to its lower-case letter. -/
def pyLower (s : String) : String :=
  ⟨s.data.map Char.toLower⟩

/-- Header lines sent on the filter-mode forwarding path
(`_read_and_store_request` lines 257–263, identically
`_handle_http_request` lines 514–520): every upstream header whose
lowercased name is `transfer-encoding`, `content-encoding` or
`content-length` is skipped, then `Content-Length: len(response.content)` is
appended. -/
def filterEmittedHeaders (respHeaders : Hash) (bodyLen : Nat) : Hash :=
  (respHeaders.filter (fun p =>
      !(pyLower p.1 == "transfer-encoding" || pyLower p.1 == "content-encoding" ||
        pyLower p.1 == "content-length"))) ++
    [("Content-Length", toString bodyLen)]

/-- The filter-mode response write (`_read_and_store_request` lines
253–265): status line `HTTP/1.1 <code> OK`, the rewritten headers, a blank
line, then `response.content`. -/
def filterWireResponse (statusCode : Nat) (respHeaders : Hash)
    (content : List Nat) : WireResponse :=
  ⟨statusCode, filterEmittedHeaders respHeaders content.length, content⟩

/-- Header lines sent on the intercept-mode allowed-response path
(`_read_and_store_request` lines 393–401, identically
`_handle_http_request` lines 647–653): `transfer-encoding` and
`content-encoding` headers are skipped, and a `content-length` header has its
value rewritten to `len(resp_body)`. -/
def interceptEmittedHeaders (respHeaders : Hash) (bodyLen : Nat) : Hash :=
  (respHeaders.filter (fun p =>
      !(pyLower p.1 == "transfer-encoding" || pyLower p.1 == "content-encoding"))).map
    (fun p => if pyLower p.1 == "content-length" then (p.1, toString bodyLen) else p)

/-- The intercept-mode allowed-response write (`_read_and_store_request`
lines 387–406): status line `HTTP/1.1 <code> OK`, the rewritten headers, a
blank line, then `resp_body`. -/
def interceptWireResponse (statusCode : Nat) (respHeaders : Hash)
    (respBody : List Nat) : WireResponse :=
  ⟨statusCode, interceptEmittedHeaders respHeaders respBody.length, respBody⟩

/-! ## `request_interceptor.py` — class `RequestInterceptor`

`is_connect_request` is `request_line.strip().startswith("CONNECT")`.  We
model Python's `str.strip` (no argument: remove ASCII whitespace from both
ends) and `str.split` (no argument: split on whitespace runs, no empty
tokens) on character lists. -/

/-- The characters Python's no-argument `str.strip`/`str.split` treat as
whitespace (ASCII fragment). -/
def isPyWhitespace (c : Char) : Bool :=
  c == ' ' || c == '\t' || c == '\n' || c == '\r' || c == '\x0b' || c == '\x0c'

/-- Python `s.strip()` on a character list. -/
def pyStrip (l : List Char) : List Char :=
  (l.dropWhile isPyWhitespace).rdropWhile isPyWhitespace

/-- The first whitespace-separated token of Python `s.split()` (empty when
the string has no token). -/
def pyFirstToken (l : List Char) : List Char :=
  (l.dropWhile isPyWhitespace).takeWhile (fun c => !isPyWhitespace c)

/-- `RequestInterceptor.is_connect_request` (`request_interceptor.py` line
145): `request_line.strip().startswith("CONNECT")`. -/
def is_connect_request (request_line : String) : Bool :=
  "CONNECT".data.isPrefixOf (pyStrip request_line.data)

/-! ## Observation helpers and a concrete store fixture -/

/-- Does a command trace write the value `blocked` to the `status` field of
`request:<id>`? -/
def writesStatusBlocked (cmds : List RedisCmd) (request_id : String) : Bool :=
  cmds.any (fun c =>
    match c with
    | .hset key field value =>
        key == "request:" ++ request_id && field == "status" && value == "blocked"
    | .hsetMapping key fields =>
        key == "request:" ++ request_id &&
          fields.any (fun p => p.1 == "status" && p.2 == "blocked")
    | _ => false)

/-- Is the `status` field of a hash, when present, one of the four data-model
status values? -/
def statusFieldOk (h : Hash) : Bool :=
  match kvGet h "status" with
  | some v => RedisStorage.statusSet.contains v
  | none => true

/-- Every hash in the store has a well-formed `status` field. -/
def statusInv (s : RedisState) : Bool :=
  s.hashes.all (fun p => statusFieldOk p.2)

/-- A concrete store holding one pending request `r1` whose key has 5 seconds
of TTL left. -/
def sampleState : RedisState :=
  { hashes := [("request:r1",
      [("id", "r1"), ("hostname", "example.test"), ("method", "GET"),
       ("path", "/hello"), ("headers", "\x7b\x7d"), ("body", ""),
       ("timestamp", "2025-01-01T00:00:00"), ("status", "pending")])]
    lists := [("pending_requests", ["r1"])]
    strings := []
    ttls := [("request:r1", 5)] }

/-! ## Association-list lemmas -/

theorem kvGet_kvSet_self {α : Type} (l : List (String × α)) (k : String) (v : α) :
    kvGet (kvSet l k v) k = some v := by
  induction l with
  | nil => simp [kvSet, kvGet]
  | cons p rest ih =>
      by_cases h : (p.1 == k) = true
      · simp [kvSet, kvGet, h]
      · simp [kvSet, kvGet, h, ih]

theorem kvGet_kvSet_ne {α : Type} (l : List (String × α)) (k k' : String) (v : α)
    (hne : k' ≠ k) : kvGet (kvSet l k v) k' = kvGet l k' := by
  have hkk : (k == k') = false := by
    simp only [beq_eq_false_iff_ne, ne_eq]
    exact fun hc => hne hc.symm
  induction l with
  | nil => simp [kvSet, kvGet, hkk]
  | cons p rest ih =>
      by_cases h : (p.1 == k) = true
      · have hp : (p.1 == k') = false := by
          simp only [beq_eq_false_iff_ne, ne_eq]
          intro hc
          exact hne ((eq_of_beq h) ▸ hc).symm
        simp [kvSet, kvGet, h, hkk, hp]
      · simp only [kvSet, h, if_false, Bool.false_eq_true, kvGet]
        by_cases hp : (p.1 == k') = true
        · simp [kvGet, hp]
        · simp [kvGet, hp, ih]

theorem kvHasKey_kvSet_self {α : Type} (l : List (String × α)) (k : String) (v : α) :
    kvHasKey (kvSet l k v) k = true := by
  induction l with
  | nil => simp [kvSet, kvHasKey]
  | cons p rest ih =>
      by_cases h : (p.1 == k) = true
      · simp [kvSet, kvHasKey, h]
      · simp only [kvSet, h, if_false, Bool.false_eq_true, kvHasKey, List.any_cons]
        simp only [kvHasKey] at ih
        simp [ih]

theorem kvGet_kvDel_self {α : Type} (l : List (String × α)) (k : String) :
    kvGet (kvDel l k) k = none := by
  induction l with
  | nil => simp [kvDel, kvGet]
  | cons p rest ih =>
      by_cases h : (p.1 == k) = true
      · simpa [kvDel, List.filter, h] using ih
      · simpa [kvDel, List.filter, kvGet, h] using ih

theorem all_kvSet {α : Type} (l : List (String × α)) (k : String) (v : α)
    (P : String × α → Bool) (hl : l.all P = true) (hv : P (k, v) = true) :
    (kvSet l k v).all P = true := by
  induction l with
  | nil => simpa [kvSet] using hv
  | cons p rest ih =>
      simp only [List.all_cons, Bool.and_eq_true] at hl
      by_cases h : (p.1 == k) = true
      · simp [kvSet, h, hv, hl.2]
      · simp [kvSet, h, hl.1, ih hl.2]

/-! ## Claim C1

For every intercepted request (HTTPS tunnel or plain HTTP), if the polled
request status becomes `blocked`, the worker sends `403 Forbidden` to the
client and never issues an upstream connection (no `requests.request` call is
reached on that path). -/

/-- C1: when the decision wait ends with status `blocked`, both the HTTPS
tunnel handler and the plain HTTP handler answer `403 Forbidden` and neither
reaches the upstream `requests.request` call. -/
theorem C1_blocked_never_upstream (polls : Nat → String)
    (h : (requestDecisionWait polls).1 = "blocked") :
    requestDecisionTunnel (requestDecisionWait polls).1 = .send403Blocked ∧
    requestDecisionPlain (requestDecisionWait polls).1 = .send403Blocked ∧
    reachesUpstreamTunnel (requestDecisionWait polls).1 = false ∧
    reachesUpstreamPlain (requestDecisionWait polls).1 = false := by
  rw [h]
  refine ⟨by decide, by decide, by decide, by decide⟩

/-- Witness for C1 at the oracle that answers `blocked` at the first poll. -/
theorem C1_blocked_never_upstream_witness :
    requestDecisionTunnel (requestDecisionWait (fun _ => "blocked")).1 = .send403Blocked ∧
    requestDecisionPlain (requestDecisionWait (fun _ => "blocked")).1 = .send403Blocked ∧
    reachesUpstreamTunnel (requestDecisionWait (fun _ => "blocked")).1 = false ∧
    reachesUpstreamPlain (requestDecisionWait (fun _ => "blocked")).1 = false :=
  C1_blocked_never_upstream (fun _ => "blocked") (by decide)

/-! ## Claim C7

In the intercept request-decision wait (S5b_WAIT), the worker polls the
request status every 500 ms for at most 60 seconds, so the loop always
terminates after at most 120 polls; if the status is still `pending` at
every poll, the worker responds `408 Request Timeout`. -/

theorem pollStatusLoop_count_le (polls : Nat → String) (fuel : Nat) :
    ∀ k st, (pollStatusLoop polls fuel k st).2 ≤ k + fuel := by
  induction fuel with
  | zero => intro k st; simp [pollStatusLoop]
  | succ n ih =>
      intro k st
      simp only [pollStatusLoop]
      by_cases h : (polls k == "pending") = true
      · simp only [h, if_true]
        calc (pollStatusLoop polls n (k + 1) (polls k)).2 ≤ k + 1 + n := ih (k + 1) _
          _ = k + (n + 1) := by omega
      · rw [if_neg h]
        show k + 1 ≤ k + (n + 1)
        omega

theorem pollStatusLoop_all_pending (polls : Nat → String)
    (h : ∀ j, polls j = "pending") (fuel : Nat) :
    ∀ k, pollStatusLoop polls fuel k "pending" = ("pending", k + fuel) := by
  induction fuel with
  | zero => intro k; simp [pollStatusLoop]
  | succ n ih =>
      intro k
      simp only [pollStatusLoop, h k, beq_self_eq_true, if_true]
      rw [ih (k + 1)]
      exact congrArg _ (by omega)

/-- C7: the decision wait makes at most 120 polls (500 ms apart, 60 s cap),
and an oracle that stays `pending` at every poll drives both handlers to the
`408 Request Timeout` answer after exactly 120 polls. -/
theorem C7_poll_cap_and_timeout (polls : Nat → String) :
    (requestDecisionWait polls).2 ≤ 120 ∧
    ((∀ j, polls j = "pending") →
      requestDecisionWait polls = ("pending", 120) ∧
      requestDecisionTunnel (requestDecisionWait polls).1 = .send408Timeout ∧
      requestDecisionPlain (requestDecisionWait polls).1 = .send408Timeout) := by
  constructor
  · simpa [requestDecisionWait, maxWaitPolls] using
      pollStatusLoop_count_le polls 120 0 "pending"
  · intro h
    have hrun : requestDecisionWait polls = ("pending", 120) := by
      simpa [requestDecisionWait, maxWaitPolls] using
        pollStatusLoop_all_pending polls h 120 0
    refine ⟨hrun, ?_, ?_⟩ <;> rw [hrun] <;> decide

/-- Witness for C7 at the oracle that never leaves `pending`. -/
theorem C7_poll_cap_and_timeout_witness :
    (requestDecisionWait (fun _ => "pending")).2 ≤ 120 ∧
    requestDecisionWait (fun _ => "pending") = ("pending", 120) :=
  ⟨(C7_poll_cap_and_timeout (fun _ => "pending")).1,
   ((C7_poll_cap_and_timeout (fun _ => "pending")).2 (fun _ => rfl)).1⟩

/-! ## More association-list lemmas -/

theorem kvGet_kvDel_ne {α : Type} (l : List (String × α)) (k k' : String)
    (hne : k' ≠ k) : kvGet (kvDel l k) k' = kvGet l k' := by
  induction l with
  | nil => simp [kvDel, kvGet]
  | cons p rest ih =>
      by_cases h : (p.1 == k) = true
      · have hp : (p.1 == k') = false := by
          simp only [beq_eq_false_iff_ne, ne_eq]
          intro hc
          exact hne ((eq_of_beq h) ▸ hc).symm
        simpa [kvDel, List.filter, kvGet, h, hp] using ih
      · by_cases hp : (p.1 == k') = true
        · simp [kvDel, List.filter, kvGet, h, hp]
        · simpa [kvDel, List.filter, kvGet, h, hp] using ih

theorem request_key_ne_pending (request_id : String) :
    ("request:" ++ request_id) ≠ "pending_requests" := by
  intro h
  have h3 : ("request:" ++ request_id).data.head? = some 'r' := rfl
  rw [h] at h3
  exact absurd h3 (by decide)

/-! ## Claim C2

The claim: `POST /api/requests/<id>/block` sets the request record's status
to `blocked` **and** deletes the record.  The handler only calls
`delete_request`; no command in its trace ever writes a `blocked` status, so
the first half of the claim is false and the delete half holds. -/

/-- Counterexample to C2 as stated: blocking the pending request `r1` of the
concrete store issues no write of status `blocked` — afterwards the stored
status reads `unknown`, not `blocked`. -/
theorem C2_counterexample :
    writesStatusBlocked (ProxyAPI.block_request_cmds "r1") "r1" = false ∧
    RedisStorage.get_request_status (ProxyAPI.block_request sampleState "r1").1 "r1"
      = "unknown" ∧
    ¬ RedisStorage.get_request_status (ProxyAPI.block_request sampleState "r1").1 "r1"
      = "blocked" := by
  decide

/-- C2 (amended): the block endpoint deletes the record — the
`request:<id>` hash and its TTL are gone and every occurrence of the id is
removed from `pending_requests` — and replies `200 {"status": "blocked"}`,
without ever writing a `blocked` status to the store. -/
theorem C2_block_deletes (s : RedisState) (request_id : String) :
    kvGet (ProxyAPI.block_request s request_id).1.hashes ("request:" ++ request_id)
      = none ∧
    redisTTL (ProxyAPI.block_request s request_id).1 ("request:" ++ request_id)
      = none ∧
    redisLRange (ProxyAPI.block_request s request_id).1 "pending_requests"
      = (redisLRange s "pending_requests").filter (fun x => !(x == request_id)) ∧
    (ProxyAPI.block_request s request_id).2.2 = some (200, "blocked") ∧
    writesStatusBlocked (ProxyAPI.block_request s request_id).2.1 request_id
      = false := by
  have hkey := request_key_ne_pending request_id
  refine ⟨?_, ?_, ?_, rfl, rfl⟩
  · simp only [ProxyAPI.block_request, RedisStorage.delete_request,
      RedisStorage.delete_request_cmds, runCmds, List.foldl, applyCmd]
    exact kvGet_kvDel_self _ _
  · simp only [ProxyAPI.block_request, RedisStorage.delete_request,
      RedisStorage.delete_request_cmds, runCmds, List.foldl, applyCmd, redisTTL]
    exact kvGet_kvDel_self _ _
  · simp only [ProxyAPI.block_request, RedisStorage.delete_request,
      RedisStorage.delete_request_cmds, runCmds, List.foldl, applyCmd,
      redisLRange, if_true]
    rw [kvGet_kvSet_self, kvGet_kvDel_ne _ _ _ (Ne.symm hkey)]
    rfl

/-! ## Claim C3

The claim: `POST /api/requests/<id>/allow` sets status `allowed` and writes
body edits via `update_request_data`.  The handler body in `proxy_api.py` is
a bare `return`: it issues no store command at all (and gives Flask nothing
to answer with), contradicting both the spec table and its own docstring
("Mark request as allowed (to be forwarded)"). -/

/-- C3: the allow endpoint is a no-op — for every store state it issues no
command, changes nothing and returns `None`; in particular, allowing the
pending request `r1` of the concrete store leaves its status `pending`, not
`allowed`. -/
theorem C3_allow_request_noop :
    (∀ (s : RedisState) (request_id : String),
      ProxyAPI.allow_request s request_id = (s, [], none)) ∧
    RedisStorage.get_request_status (ProxyAPI.allow_request sampleState "r1").1 "r1"
      = "pending" ∧
    ¬ RedisStorage.get_request_status (ProxyAPI.allow_request sampleState "r1").1 "r1"
      = "allowed" :=
  ⟨fun _ _ => rfl, by decide, by decide⟩

/-! ## Claim C8

The claim: `update_request_status` refreshes the request record's TTL as part
of the status change.  The method issues a single `HSET`, and Redis `HSET`
does not touch a key's TTL; no `EXPIRE` occurs. -/

/-- Counterexample to C8 as stated: the concrete store's `request:r1` key has
5 seconds of TTL left; after `update_request_status` the TTL still reads 5 —
not the full expiration period of 3600. -/
theorem C8_counterexample :
    redisTTL sampleState "request:r1" = some 5 ∧
    redisTTL (RedisStorage.update_request_status sampleState "r1" "allowed").1
      "request:r1" = some 5 ∧
    ¬ redisTTL (RedisStorage.update_request_status sampleState "r1" "allowed").1
      "request:r1" = some 3600 := by
  decide

/-- C8 (amended): `update_request_status` writes the new status to the
record and returns `True`, leaving the TTL table (and every non-hash part of
the store) untouched. -/
theorem C8_update_status_keeps_ttl (s : RedisState) (request_id status : String) :
    (RedisStorage.update_request_status s request_id status).2 = true ∧
    (RedisStorage.update_request_status s request_id status).1.ttls = s.ttls ∧
    (RedisStorage.update_request_status s request_id status).1.lists = s.lists ∧
    (RedisStorage.update_request_status s request_id status).1.strings = s.strings ∧
    redisHGet (RedisStorage.update_request_status s request_id status).1
      ("request:" ++ request_id) "status" = some status := by
  refine ⟨rfl, rfl, rfl, rfl, ?_⟩
  simp only [RedisStorage.update_request_status,
    RedisStorage.update_request_status_cmds, runCmds, List.foldl, applyCmd,
    hashWrite, redisHGet]
  rw [kvGet_kvSet_self, Option.some_bind]
  exact kvGet_kvSet_self _ _ _

/-! ## Claim C6

`save_request` writes the `request:<id>` hash with the given fields,
left-pushes the id onto `pending_requests`, sets the record's status to
`pending`, gives the key a TTL of one hour, and returns `True`. -/

/-- C6: on a fresh id, `save_request` produces exactly the seven request
fields plus `status = pending` in the `request:<id>` hash, pushes the id to
the head of `pending_requests`, sets the key's TTL to 3600 seconds, and
returns `True`. -/
theorem C6_save_request_effect (s : RedisState)
    (request_id hostname method path : String) (headers : Hash)
    (body timestamp : String)
    (hfresh : kvGet s.hashes ("request:" ++ request_id) = none) :
    (RedisStorage.save_request s request_id hostname method path headers body
        timestamp).2 = true ∧
    kvGet (RedisStorage.save_request s request_id hostname method path headers
        body timestamp).1.hashes ("request:" ++ request_id) =
      some [("id", request_id), ("hostname", hostname), ("method", method),
        ("path", path), ("headers", jsonDumps headers), ("body", body),
        ("timestamp", timestamp), ("status", "pending")] ∧
    redisLRange (RedisStorage.save_request s request_id hostname method path
        headers body timestamp).1 "pending_requests" =
      request_id :: redisLRange s "pending_requests" ∧
    redisTTL (RedisStorage.save_request s request_id hostname method path
        headers body timestamp).1 ("request:" ++ request_id) = some 3600 := by
  have hfold : ([("id", request_id), ("hostname", hostname), ("method", method),
      ("path", path), ("headers", jsonDumps headers), ("body", body),
      ("timestamp", timestamp)] : Hash).foldl (fun acc p => kvSet acc p.1 p.2) [] =
      [("id", request_id), ("hostname", hostname), ("method", method),
      ("path", path), ("headers", jsonDumps headers), ("body", body),
      ("timestamp", timestamp)] := rfl
  refine ⟨rfl, ?_, ?_, ?_⟩ <;>
    simp only [RedisStorage.save_request, RedisStorage.save_request_cmds,
      runCmds, List.foldl, applyCmd, hashWrite, RedisState.hasKey,
      redisLRange, redisTTL, hfresh, Option.getD_none, hfold,
      kvGet_kvSet_self, Option.getD_some, kvHasKey_kvSet_self, Bool.true_or,
      if_true]
  all_goals rfl

/-- Witness for C6: saving a request `r9` into the empty store. -/
theorem C6_save_request_effect_witness :
    (RedisStorage.save_request RedisState.empty "r9" "example.test" "GET" "/x"
        [] "" "t0").2 = true ∧
    kvGet (RedisStorage.save_request RedisState.empty "r9" "example.test" "GET"
        "/x" [] "" "t0").1.hashes ("request:" ++ "r9") =
      some [("id", "r9"), ("hostname", "example.test"), ("method", "GET"),
        ("path", "/x"), ("headers", jsonDumps []), ("body", ""),
        ("timestamp", "t0"), ("status", "pending")] ∧
    redisLRange (RedisStorage.save_request RedisState.empty "r9" "example.test"
        "GET" "/x" [] "" "t0").1 "pending_requests" =
      "r9" :: redisLRange RedisState.empty "pending_requests" ∧
    redisTTL (RedisStorage.save_request RedisState.empty "r9" "example.test"
        "GET" "/x" [] "" "t0").1 ("request:" ++ "r9") = some 3600 :=
  C6_save_request_effect RedisState.empty "r9" "example.test" "GET" "/x" [] ""
    "t0" (by decide)

/-! ## Claim C4

The claim: every status value ever observed for a request or response record
is one of `pending`, `allowed`, `blocked`, `modified`; in particular
`get_request_status` / `get_response_status` never return any other value.
The getters return the sentinel `unknown` whenever the record (or its
`status` field) is absent — e.g. immediately after a block-delete — so the
claim as stated is false. -/

/-- Counterexample to C4 as stated: on the empty store (no record ever
written) `get_request_status` returns `unknown`, which is none of the four
data-model status values. -/
theorem C4_counterexample :
    RedisStorage.get_request_status RedisState.empty "r1" = "unknown" ∧
    RedisStorage.get_response_status RedisState.empty "r1" = "unknown" ∧
    RedisStorage.statusSet.contains "unknown" = false := by
  decide

theorem all_snd_of_kvGet {α : Type} (l : List (String × α)) (k : String) (v : α)
    (Q : α → Bool) (hall : l.all (fun p => Q p.2) = true)
    (hget : kvGet l k = some v) : Q v = true := by
  induction l with
  | nil => simp [kvGet] at hget
  | cons p rest ih =>
      simp only [List.all_cons, Bool.and_eq_true] at hall
      by_cases h : (p.1 == k) = true
      · simp only [kvGet, h, if_true, Option.some.injEq] at hget
        exact hget ▸ hall.1
      · simp only [kvGet, h, if_false, Bool.false_eq_true] at hget
        exact ih hall.2 hget

theorem kvGet_foldl_kvSet_of_all_ne (f : String) (fields : Hash)
    (hf : fields.all (fun p => !(p.1 == f)) = true) :
    ∀ h : Hash, kvGet (fields.foldl (fun acc p => kvSet acc p.1 p.2) h) f
      = kvGet h f := by
  induction fields with
  | nil => intro h; rfl
  | cons q rest ih =>
      intro h
      simp only [List.all_cons, Bool.and_eq_true] at hf
      have hq : q.1 ≠ f := by
        intro hc
        rw [hc] at hf
        simp at hf
      simp only [List.foldl]
      rw [ih hf.2, kvGet_kvSet_ne]
      intro hc
      exact hq hc.symm

theorem statusInv_hashWrite_status (s : RedisState) (key st : String)
    (hinv : statusInv s = true) (hst : RedisStorage.statusSet.contains st = true) :
    statusInv (hashWrite s key "status" st) = true := by
  unfold statusInv hashWrite
  refine all_kvSet _ _ _ _ hinv ?_
  simp only [statusFieldOk, kvGet_kvSet_self, hst]

theorem statusInv_expire (s : RedisState) (k : String) (t : Nat) :
    statusInv (applyCmd s (.expire k t)) = statusInv s := by
  rw [show applyCmd s (.expire k t)
      = if s.hasKey k = true then { s with ttls := kvSet s.ttls k t } else s
    from rfl]
  by_cases h : s.hasKey k = true
  · rw [if_pos h]
    rfl
  · rw [if_neg h]

theorem statusInv_lpush (s : RedisState) (k v : String) :
    statusInv (applyCmd s (.lpush k v)) = statusInv s := rfl

theorem statusFieldOk_getD (s : RedisState) (key : String)
    (hinv : statusInv s = true) :
    statusFieldOk ((kvGet s.hashes key).getD []) = true := by
  cases hks : kvGet s.hashes key with
  | none => rfl
  | some h => exact all_snd_of_kvGet s.hashes _ h _ hinv hks

theorem statusFieldOk_foldl_request_fields (h0 : Hash)
    (hok : statusFieldOk h0 = true)
    (request_id hostname method path hj body timestamp : String) :
    statusFieldOk (([("id", request_id), ("hostname", hostname),
      ("method", method), ("path", path), ("headers", hj), ("body", body),
      ("timestamp", timestamp)] : Hash).foldl
        (fun acc p => kvSet acc p.1 p.2) h0) = true := by
  unfold statusFieldOk
  rw [kvGet_foldl_kvSet_of_all_ne "status"
      [("id", request_id), ("hostname", hostname), ("method", method),
       ("path", path), ("headers", hj), ("body", body),
       ("timestamp", timestamp)] (by rfl) h0]
  unfold statusFieldOk at hok
  exact hok

theorem statusFieldOk_foldl_response_fields (h0 : Hash) (sc hj body : String) :
    statusFieldOk (([("status_code", sc), ("headers", hj), ("body", body),
      ("status", "pending")] : Hash).foldl
        (fun acc p => kvSet acc p.1 p.2) h0) = true := by
  unfold statusFieldOk
  have hshape : (([("status_code", sc), ("headers", hj), ("body", body),
      ("status", "pending")] : Hash).foldl (fun acc p => kvSet acc p.1 p.2) h0)
      = kvSet (([("status_code", sc), ("headers", hj), ("body", body)] :
          Hash).foldl (fun acc p => kvSet acc p.1 p.2) h0) "status" "pending" :=
    rfl
  rw [hshape, kvGet_kvSet_self]
  rfl

theorem statusInv_save_request (s : RedisState)
    (request_id hostname method path : String) (headers : Hash)
    (body timestamp : String) (hinv : statusInv s = true) :
    statusInv (RedisStorage.save_request s request_id hostname method path
      headers body timestamp).1 = true := by
  have h1 : statusInv (applyCmd s
      (.hsetMapping ("request:" ++ request_id)
        [("id", request_id), ("hostname", hostname), ("method", method),
         ("path", path), ("headers", jsonDumps headers), ("body", body),
         ("timestamp", timestamp)])) = true := by
    unfold applyCmd statusInv
    refine all_kvSet _ _ _ _ hinv ?_
    exact statusFieldOk_foldl_request_fields _ (statusFieldOk_getD s _ hinv)
      request_id hostname method path (jsonDumps headers) body timestamp
  refine statusInv_hashWrite_status _ _ _ ?_ rfl
  rw [statusInv_expire, statusInv_lpush]
  exact h1

theorem statusInv_save_response (s : RedisState) (request_id : String)
    (status_code : Nat) (headers : Hash) (body : String)
    (hinv : statusInv s = true) :
    statusInv (RedisStorage.save_response s request_id status_code headers
      body).1 = true := by
  rw [show (RedisStorage.save_response s request_id status_code headers body).1
      = applyCmd (applyCmd s
          (.hsetMapping ("response:" ++ request_id)
            [("status_code", toString status_code),
             ("headers", jsonDumps headers), ("body", body),
             ("status", "pending")]))
          (.expire ("response:" ++ request_id) 3600)
    from rfl]
  rw [statusInv_expire]
  unfold applyCmd statusInv
  refine all_kvSet _ _ _ _ hinv ?_
  exact statusFieldOk_foldl_response_fields _ _ _ _

/-- C4 (amended): the getters return either a stored status or the sentinel
`unknown` (with `error` possible only when the store itself raises, which is
outside this model).  Under the invariant that every stored `status` field is
one of the four data-model values — an invariant that `save_request`,
`save_response`, and the status updaters (for the four valid values)
preserve — every getter result is in the four-value set or is `unknown`. -/
theorem C4_status_observed (s : RedisState) (request_id st : String)
    (hostname method path : String) (headers : Hash) (body timestamp : String)
    (status_code : Nat) (hinv : statusInv s = true) :
    (RedisStorage.get_request_status s request_id = "unknown" ∨
      RedisStorage.statusSet.contains
        (RedisStorage.get_request_status s request_id) = true) ∧
    (RedisStorage.get_response_status s request_id = "unknown" ∨
      RedisStorage.statusSet.contains
        (RedisStorage.get_response_status s request_id) = true) ∧
    (RedisStorage.statusSet.contains st = true →
      statusInv (RedisStorage.update_request_status s request_id st).1 = true) ∧
    (RedisStorage.statusSet.contains st = true →
      statusInv (RedisStorage.update_response_status s request_id st).1 = true) ∧
    statusInv (RedisStorage.save_request s request_id hostname method path
      headers body timestamp).1 = true ∧
    statusInv (RedisStorage.save_response s request_id status_code headers
      body).1 = true := by
  refine ⟨?_, ?_, ?_, ?_, ?_, ?_⟩
  · unfold RedisStorage.get_request_status redisHGet
    cases hks : kvGet s.hashes ("request:" ++ request_id) with
    | none => exact Or.inl rfl
    | some h =>
        simp only [Option.some_bind]
        cases hfield : kvGet h "status" with
        | none => exact Or.inl rfl
        | some v =>
            by_cases hv : (v == "") = true
            · left
              simp [hv]
            · right
              have hok : statusFieldOk h = true :=
                all_snd_of_kvGet s.hashes _ h _ hinv hks
              unfold statusFieldOk at hok
              rw [hfield] at hok
              simpa [hv] using hok
  · unfold RedisStorage.get_response_status redisHGet
    cases hks : kvGet s.hashes ("response:" ++ request_id) with
    | none => exact Or.inl rfl
    | some h =>
        simp only [Option.some_bind]
        cases hfield : kvGet h "status" with
        | none => exact Or.inl rfl
        | some v =>
            by_cases hv : (v == "") = true
            · left
              simp [hv]
            · right
              have hok : statusFieldOk h = true :=
                all_snd_of_kvGet s.hashes _ h _ hinv hks
              unfold statusFieldOk at hok
              rw [hfield] at hok
              simpa [hv] using hok
  · intro hst
    exact statusInv_hashWrite_status s _ st hinv hst
  · intro hst
    exact statusInv_hashWrite_status s _ st hinv hst
  · exact statusInv_save_request s request_id hostname method path headers
      body timestamp hinv
  · exact statusInv_save_response s request_id status_code headers body hinv

/-- Witness for C4 (amended) on the concrete pending store, updating to
`allowed`. -/
theorem C4_status_observed_witness :
    (RedisStorage.get_request_status sampleState "r1" = "unknown" ∨
      RedisStorage.statusSet.contains
        (RedisStorage.get_request_status sampleState "r1") = true) ∧
    statusInv (RedisStorage.update_request_status sampleState "r1" "allowed").1
      = true :=
  ⟨(C4_status_observed sampleState "r1" "allowed" "example.test" "GET" "/x" []
      "" "t0" 200 (by decide)).1,
   (C4_status_observed sampleState "r1" "allowed" "example.test" "GET" "/x" []
      "" "t0" 200 (by decide)).2.2.1 (by decide)⟩

/-! ## Claim C5

In state S9, every response written to the client omits every
`Transfer-Encoding` and `Content-Encoding` header, and any `Content-Length`
header written carries the exact byte length of the body bytes then written —
on both the filter-mode forwarding path and the intercept-mode
allowed-response path (the filter path always writes such a
`Content-Length`). -/

theorem all_of_filter {α : Type} (l : List α) (q P : α → Bool)
    (h : ∀ x, q x = true → P x = true) : (l.filter q).all P = true := by
  rw [List.all_eq_true]
  intro x hx
  exact h x (List.mem_filter.mp hx).2

/-- C5: header rewriting in S9 on both client-write paths. -/
theorem C5_s9_content_length (respHeaders : Hash) (statusCode : Nat)
    (content respBody : List Nat) :
    ((filterWireResponse statusCode respHeaders content).headers.all (fun p =>
      !(pyLower p.1 == "transfer-encoding") &&
      !(pyLower p.1 == "content-encoding")) = true) ∧
    ((filterWireResponse statusCode respHeaders content).headers.all (fun p =>
      !(pyLower p.1 == "content-length") ||
      (p.2 == toString (filterWireResponse statusCode respHeaders
        content).body.length)) = true) ∧
    (("Content-Length",
        toString (filterWireResponse statusCode respHeaders content).body.length)
      ∈ (filterWireResponse statusCode respHeaders content).headers) ∧
    ((interceptWireResponse statusCode respHeaders respBody).headers.all (fun p =>
      !(pyLower p.1 == "transfer-encoding") &&
      !(pyLower p.1 == "content-encoding")) = true) ∧
    ((interceptWireResponse statusCode respHeaders respBody).headers.all (fun p =>
      !(pyLower p.1 == "content-length") ||
      (p.2 == toString (interceptWireResponse statusCode respHeaders
        respBody).body.length)) = true) := by
  refine ⟨?_, ?_, ?_, ?_, ?_⟩
  · show (filterEmittedHeaders respHeaders content.length).all _ = true
    unfold filterEmittedHeaders
    rw [List.all_append, Bool.and_eq_true]
    constructor
    · refine all_of_filter _ _ _ ?_
      intro x hq
      rw [Bool.not_or, Bool.not_or, Bool.and_eq_true] at hq
      exact hq.1
    · have h1 : (pyLower "Content-Length" == "transfer-encoding") = false := by
        decide
      have h2 : (pyLower "Content-Length" == "content-encoding") = false := by
        decide
      simp [h1, h2]
  · show (filterEmittedHeaders respHeaders content.length).all _ = true
    unfold filterEmittedHeaders
    rw [List.all_append, Bool.and_eq_true]
    constructor
    · refine all_of_filter _ _ _ ?_
      intro x hq
      rw [Bool.not_or, Bool.not_or, Bool.and_eq_true] at hq
      rw [hq.2]
      rfl
    · simp [filterWireResponse]
  · show _ ∈ filterEmittedHeaders respHeaders content.length
    unfold filterEmittedHeaders
    exact List.mem_append_right _ (List.mem_singleton.mpr rfl)
  · show (interceptEmittedHeaders respHeaders respBody.length).all _ = true
    unfold interceptEmittedHeaders
    rw [List.all_map]
    refine all_of_filter _ _ _ ?_
    intro x hq
    rw [Bool.not_or] at hq
    show (fun p => !(pyLower p.1 == "transfer-encoding") &&
        !(pyLower p.1 == "content-encoding"))
      (if pyLower x.1 == "content-length"
        then (x.1, toString respBody.length) else x) = true
    by_cases hc : (pyLower x.1 == "content-length") = true
    · rw [if_pos hc]
      exact hq
    · rw [if_neg hc]
      exact hq
  · show (interceptEmittedHeaders respHeaders respBody.length).all _ = true
    unfold interceptEmittedHeaders
    rw [List.all_map]
    refine all_of_filter _ _ _ ?_
    intro x _
    show (fun p => !(pyLower p.1 == "content-length") ||
        (p.2 == toString respBody.length))
      (if pyLower x.1 == "content-length"
        then (x.1, toString respBody.length) else x) = true
    by_cases hc : (pyLower x.1 == "content-length") = true
    · rw [if_pos hc]
      simp
    · rw [if_neg hc]
      simp only [Bool.or_eq_true, Bool.not_eq_true']
      left
      exact Bool.not_eq_true _ ▸ Bool.of_not_eq_true hc

/-! ## Claim C10

For every string other than `intercept` and `filter`, `set_proxy_mode`
returns `False` and leaves `proxy_config:mode` unchanged, so a subsequent
`get_proxy_mode` answers as before. -/

/-- C10: rejected modes change nothing. -/
theorem C10_set_mode_invalid_noop (s : RedisState) (mode : String)
    (h1 : mode ≠ "intercept") (h2 : mode ≠ "filter") :
    RedisStorage.set_proxy_mode s mode = (s, false) ∧
    RedisStorage.get_proxy_mode (RedisStorage.set_proxy_mode s mode).1
      = RedisStorage.get_proxy_mode s := by
  have hb1 : (mode == "intercept") = false := beq_eq_false_iff_ne.mpr h1
  have hb2 : (mode == "filter") = false := beq_eq_false_iff_ne.mpr h2
  have hmain : RedisStorage.set_proxy_mode s mode = (s, false) := by
    simp [RedisStorage.set_proxy_mode, hb1, hb2]
  exact ⟨hmain, by rw [hmain]⟩

/-- Witness for C10 at the mode string `turbo` and the empty store. -/
theorem C10_set_mode_invalid_noop_witness :
    RedisStorage.set_proxy_mode RedisState.empty "turbo" = (RedisState.empty, false) ∧
    RedisStorage.get_proxy_mode (RedisStorage.set_proxy_mode RedisState.empty "turbo").1
      = RedisStorage.get_proxy_mode RedisState.empty :=
  C10_set_mode_invalid_noop RedisState.empty "turbo" (by decide) (by decide)

/-! ## Claim C9

The claim: `is_connect_request(line)` is true iff the first
whitespace-separated token of the line is exactly `CONNECT`.  The code uses
`line.strip().startswith("CONNECT")`, which also accepts any line whose first
token merely *begins* with `CONNECT` (e.g. `CONNECTED …`). -/

/-- Counterexample to C9 as stated: `CONNECTED evil.test HTTP/1.1` is
classified as a CONNECT request although its first token is `CONNECTED`, not
`CONNECT`. -/
theorem C9_counterexample :
    is_connect_request "CONNECTED evil.test HTTP/1.1" = true ∧
    ¬ pyFirstToken "CONNECTED evil.test HTTP/1.1".data = "CONNECT".data := by
  decide

theorem rdropWhile_cons_eq {α : Type} (q : α → Bool) (c : α) (m : List α) :
    List.rdropWhile q (c :: m) =
      if (List.rdropWhile q m).isEmpty then (if q c then [] else [c])
      else c :: List.rdropWhile q m := by
  unfold List.rdropWhile
  rw [show (c :: m).reverse = m.reverse ++ [c] from by simp]
  rw [List.dropWhile_append]
  by_cases h : (List.dropWhile q m.reverse).isEmpty = true
  · have h' : List.dropWhile q m.reverse = [] := by
      simpa [List.isEmpty_iff] using h
    rw [h']
    simp only [List.isEmpty_nil, if_true, List.reverse_nil]
    by_cases hq : q c = true
    · simp [List.dropWhile_cons, hq]
    · simp [List.dropWhile_cons, hq]
  · have hX : List.dropWhile q m.reverse ≠ [] := by
      intro he
      rw [he] at h
      simp at h
    have hrev : ((List.dropWhile q m.reverse).reverse).isEmpty = false := by
      simp [List.isEmpty_iff, hX]
    have hie : (List.dropWhile q m.reverse).isEmpty = false := by
      simp [List.isEmpty_iff, hX]
    rw [hie, hrev]
    simp [List.reverse_append]

theorem isPrefixOf_rdropWhile_eq_takeWhile (m : List Char) :
    ∀ pat : List Char, pat.all (fun c => !isPyWhitespace c) = true →
      pat.isPrefixOf (List.rdropWhile isPyWhitespace m)
        = pat.isPrefixOf (m.takeWhile (fun c => !isPyWhitespace c)) := by
  induction m with
  | nil => intro pat _; rfl
  | cons c m ih =>
      intro pat hp
      rw [List.takeWhile_cons]
      by_cases hw : isPyWhitespace c = true
      · rw [if_neg (by simp [hw])]
        rw [rdropWhile_cons_eq]
        by_cases hre : (List.rdropWhile isPyWhitespace m).isEmpty = true
        · rw [if_pos hre, if_pos hw]
        · rw [if_neg hre]
          cases pat with
          | nil => rfl
          | cons a pat' =>
              simp only [List.all_cons, Bool.and_eq_true] at hp
              have hac : (a == c) = false := by
                cases hb : (a == c) with
                | false => rfl
                | true =>
                    have hae := eq_of_beq hb
                    rw [hae, hw] at hp
                    simpa using hp.1
              show ((a == c) && pat'.isPrefixOf (List.rdropWhile isPyWhitespace m))
                = List.isPrefixOf (a :: pat') []
              rw [hac]
              rfl
      · have hstep : List.rdropWhile isPyWhitespace (c :: m)
            = c :: List.rdropWhile isPyWhitespace m := by
          rw [rdropWhile_cons_eq]
          by_cases hre : (List.rdropWhile isPyWhitespace m).isEmpty = true
          · have h' : List.rdropWhile isPyWhitespace m = [] := by
              simpa [List.isEmpty_iff] using hre
            rw [if_pos hre, h']
            simp [hw]
          · rw [if_neg hre]
        rw [hstep, if_pos (by simp [hw])]
        cases pat with
        | nil => rfl
        | cons a pat' =>
            simp only [List.all_cons, Bool.and_eq_true] at hp
            show ((a == c) && pat'.isPrefixOf (List.rdropWhile isPyWhitespace m))
              = ((a == c) &&
                pat'.isPrefixOf (m.takeWhile (fun x => !isPyWhitespace x)))
            rw [ih pat' hp.2]

/-- C9 (amended): `is_connect_request(line)` is true iff the first
whitespace-separated token of the line *begins with* `CONNECT` — not iff it
equals `CONNECT`. -/
theorem C9_is_connect_via_first_token (line : String) :
    is_connect_request line
      = "CONNECT".data.isPrefixOf (pyFirstToken line.data) := by
  unfold is_connect_request pyStrip pyFirstToken
  exact isPrefixOf_rdropWhile_eq_takeWhile
    (line.data.dropWhile isPyWhitespace) "CONNECT".data (by decide)

end BurpScratch
